import Mathlib

/-!
Verification development for the jscrape scraping framework.

Each definition below is a shallow embedding of a function or class from the
repository source (src/src/utils.js, src/lib/proxies.js, src/lib/scrapers.js,
src/src/processors.js, and the runner module). JavaScript values that matter
to the verified properties (truthiness, error prototype chains, generator
runs, timers) are modelled explicitly; asynchronous code is modelled by
explicit state passing over an idealized deterministic clock.
-/

namespace Jscrape

/-! ## String utilities (src/src/utils.js) -/

/-- Membership in the JavaScript regular-expression whitespace class
(the class written as backslash-s), as used by split and trim. -/
def isJsWhitespace (c : Char) : Bool :=
  c = ' ' || c = '\t' || c = '\n' || c = '\r' || c = '\x0b' || c = '\x0c'
    || c = '\u00A0' || c = '\u1680' || (0x2000 ≤ c.toNat && c.toNat ≤ 0x200A)
    || c = '\u2028' || c = '\u2029' || c = '\u202F' || c = '\u205F'
    || c = '\u3000' || c = '\uFEFF'

/-- Worker for splitWs. The state is some acc while a token is being
accumulated and none while inside a run of whitespace separators. -/
def splitWsAux : Option (List Char) → List Char → List String
  | some acc, [] => [String.mk acc.reverse]
  | none, [] => [""]
  | some acc, c :: cs =>
    if isJsWhitespace c then String.mk acc.reverse :: splitWsAux none cs
    else splitWsAux (some (c :: acc)) cs
  | none, c :: cs =>
    if isJsWhitespace c then splitWsAux none cs
    else splitWsAux (some [c]) cs

/-- JavaScript String.split on the regular expression of one-or-more
whitespace characters: separators are maximal whitespace runs, and a leading
or trailing run contributes an empty token at that end. -/
def splitWs (s : String) : List String :=
  splitWsAux (some []) s.toList

/-- JavaScript String.replace of every tab or newline by a space
(the replace call on the first line of cleanWhitespace). -/
def jsReplaceTabNewline (s : String) : String :=
  String.mk (s.toList.map fun c => if c = '\t' || c = '\n' then ' ' else c)

/-- JavaScript String.trim: strip whitespace from both ends. -/
def jsTrim (s : String) : String :=
  String.mk (((s.toList.dropWhile isJsWhitespace).reverse.dropWhile
    isJsWhitespace).reverse)

/-- Embeds utils.cleanWhitespace: a falsy (empty) string is returned as is;
otherwise tabs and newlines are replaced by spaces, the string is split on
whitespace runs, joined with single spaces, and trimmed. -/
def cleanWhitespace (s : String) : String :=
  if s = "" then s
  else jsTrim (String.intercalate " " (splitWs (jsReplaceTabNewline s)))

/-- Embeds ElementHandleHandler.cleanText (src/lib/proxies.js): the raw text
read from the element is passed through utils.cleanWhitespace. -/
def cleanText (rawText : String) : String :=
  cleanWhitespace rawText

/-- Worker splitting a character list at every occurrence of a separator
character, JavaScript String.split with a one-character separator. -/
def splitCharAux (sep : Char) : List Char → List Char → List String
  | acc, [] => [String.mk acc.reverse]
  | acc, c :: cs =>
    if c = sep then String.mk acc.reverse :: splitCharAux sep [] cs
    else splitCharAux sep (c :: acc) cs

/-- JavaScript String.split with a one-character separator. -/
def jsSplitChar (s : String) (sep : Char) : List String :=
  splitCharAux sep [] s.toList

/-- Does the character list begin with the given pattern? -/
def startsWithChars : List Char → List Char → Bool
  | _, [] => true
  | [], _ :: _ => false
  | c :: cs, p :: ps => c = p && startsWithChars cs ps

/-- Does the character list contain the pattern as a contiguous sublist? -/
def containsChars : List Char → List Char → Bool
  | [], pat => pat.isEmpty
  | c :: cs, pat => startsWithChars (c :: cs) pat || containsChars cs pat

/-- JavaScript String.includes, used by Scraper.recoverable to detect the
distinguished session-closed fault text. -/
def jsIncludes (s pat : String) : Bool :=
  containsChars s.toList pat.toList

/-! ## Error model (src/src/errors.js and utils.wrappedError) -/

/-- A JavaScript error value: its prototype chain of class names
(instanceof checks membership), its message, and its stack string. -/
structure JsErr where
  classes : List String
  message : String
  stack : String
deriving DecidableEq, Repr

/-- A JavaScript error class: a name plus the names of its superclasses. -/
structure JsClass where
  name : String
  superChain : List String
deriving DecidableEq, Repr

/-- The prototype chain of an instance freshly constructed from the class. -/
def JsClass.instanceChain (k : JsClass) : List String :=
  k.name :: k.superChain

/-- The BaseError class of src/src/errors.js, extending Error. -/
def baseErrorClass : JsClass :=
  ⟨"BaseError", ["Error"]⟩

/-- The stack-trimming step of utils.wrappedError: split the stack on
newlines, drop the first line, and join the rest back with newlines. -/
def cleanInnerStack (stack : String) : String :=
  String.intercalate "\n" ((jsSplitChar stack '\n').drop 1)

/-- Embeds utils.wrappedError (src/src/utils.js). If the error is already an
instance of the target class it is returned unchanged. Otherwise a fresh
instance of the target class is constructed (with an empty message, since the
constructor is called with no arguments) and its stack is set to the class
name, the final message (the explicit message argument when truthy, else the
message of the original error), and the original stack minus its first line. -/
def wrappedError (k : JsClass) (e : JsErr) (message : Option String) : JsErr :=
  if e.classes.contains k.name then e
  else
    let finalMessage :=
      match message with
      | some m => if m = "" then e.message else m
      | none => e.message
    { classes := k.instanceChain
      message := ""
      stack := k.name ++ ": " ++ finalMessage ++ "\n" ++ cleanInnerStack e.stack }

end Jscrape

open Jscrape

/-- C8: passing the raw text made of two spaces, A, tab, B, newline, two
spaces, C, two trailing spaces through the clean-text whitespace
normalization yields exactly the string A space B space C. -/
theorem c8_clean_whitespace :
    cleanText "  A\tB\n  C  " = "A B C" := by
  decide

/-- C10: wrapping an error in the base fault kind is idempotent. An error
that is already an instance of the target class is returned unchanged; any
other error becomes a fresh instance of the target class whose stack carries
the original message and the inner stack minus its first line; wrapping twice
equals wrapping once. -/
theorem c10_wrapped_error_idempotent (k : JsClass) (e : JsErr) :
    (e.classes.contains k.name = true → wrappedError k e none = e)
    ∧ (e.classes.contains k.name = false →
        wrappedError k e none =
          ⟨k.instanceChain, "",
            k.name ++ ": " ++ e.message ++ "\n" ++ cleanInnerStack e.stack⟩
        ∧ (wrappedError k e none).classes.contains k.name = true)
    ∧ wrappedError k (wrappedError k e none) none = wrappedError k e none := by
  by_cases hm : k.name ∈ e.classes
  · have h1 : wrappedError k e none = e := by
      simp [wrappedError, hm]
    refine ⟨fun _ => h1, fun hc => absurd hm (by simpa using hc), ?_⟩
    rw [h1]
    exact h1
  · have h1 : wrappedError k e none =
        ⟨k.instanceChain, "",
          k.name ++ ": " ++ e.message ++ "\n" ++ cleanInnerStack e.stack⟩ := by
      simp [wrappedError, hm]
    have hmem : k.name ∈ (wrappedError k e none).classes := by
      rw [h1]
      simp [JsClass.instanceChain]
    refine ⟨fun hc => absurd (by simpa using hc : k.name ∈ e.classes) hm,
      fun _ => ⟨h1, by simpa using hmem⟩, ?_⟩
    conv_lhs => rw [h1]
    simp [wrappedError, JsClass.instanceChain, hm]

/-- C10 witness: concrete evaluations of wrappedError at an error that is
already a BaseError instance and at a foreign error. -/
theorem c10_wrapped_error_idempotent_witness :
    wrappedError baseErrorClass ⟨["BaseError", "Error"], "oops", "s"⟩ none
      = ⟨["BaseError", "Error"], "oops", "s"⟩
    ∧ wrappedError baseErrorClass
        ⟨["TypeError", "Error"], "boom", "TypeError: boom\nat line one"⟩ none
      = ⟨["BaseError", "Error"], "", "BaseError: boom\nat line one"⟩ := by
  refine ⟨(c10_wrapped_error_idempotent baseErrorClass
    ⟨["BaseError", "Error"], "oops", "s"⟩).1 (by decide), ?_⟩
  have h := ((c10_wrapped_error_idempotent baseErrorClass
    ⟨["TypeError", "Error"], "boom", "TypeError: boom\nat line one"⟩).2.1
    (by decide)).1
  simpa [baseErrorClass, JsClass.instanceChain, cleanInnerStack, jsSplitChar,
    splitCharAux] using h

namespace Jscrape

/-! ## BaseHandler.get (src/lib/proxies.js, lines 103-133) -/

/-- A JavaScript value as seen by the proxy get trap. Functions and plain
objects are represented by opaque identifiers; numbers by integers (the
special not-a-number value is not needed by any property here). -/
inductive JSVal where
  | undefinedV
  | jsNull
  | bool (b : Bool)
  | num (n : Int)
  | str (s : String)
  | func (fid : Nat)
  | obj (oid : Nat)
deriving DecidableEq, Repr

/-- JavaScript truthiness, the test applied to localValue by the get trap. -/
def truthy : JSVal → Bool
  | .undefinedV => false
  | .jsNull => false
  | .bool b => b
  | .num n => n != 0
  | .str s => s != ""
  | .func _ => true
  | .obj _ => true

/-- The outcome of the get trap: a plain value handed outward, a bound
wrapper closure for handler method fid (the arrow function of line 123,
which invokes the handler implementation bound to the handler state, passing
the underlying target first), or the thrown invalid-request Error. -/
inductive GetResult where
  | value (v : JSVal)
  | boundMethod (fid : Nat)
  | invalidRequest (key : String)
deriving DecidableEq, Repr

/-- Is the outcome the thrown invalid-request Error? -/
def GetResult.isInvalid : GetResult → Bool
  | .invalidRequest _ => true
  | _ => false

/-- Embeds BaseHandler.get. The handler slot for the key is read; if it is
truthy and a function, a bound wrapper is produced; if it is truthy and not
a function, an internal Error is thrown; otherwise (slot absent or falsy)
the member of the underlying target is returned unmodified. -/
def baseHandlerGet (handlerSlots targetSlots : String → JSVal)
    (key : String) : GetResult :=
  let localValue := handlerSlots key
  if truthy localValue then
    match localValue with
    | .func fid => .boundMethod fid
    | _ => .invalidRequest key
  else
    .value (targetSlots key)

/-- Application of a get-trap outcome to an argument list, given the table of
handler method implementations (each taking the underlying target and the
call arguments, the handler state being already bound). Only a bound wrapper
is applied here; it invokes the handler implementation on the target. -/
def callGetResult (methods : Nat → (String → JSVal) → List JSVal → JSVal)
    (targetSlots : String → JSVal) : GetResult → List JSVal → Option JSVal
  | .boundMethod fid, args => some (methods fid targetSlots args)
  | _, _ => none

/-- Handler slots of a freshly constructed BrowserHandler restricted to its
lastPageLoad field, which the constructor sets to the number 0 (line 635). -/
def freshBrowserHandlerSlots : String → JSVal :=
  fun key => if key = "__lastPageLoad" then .num 0 else .undefinedV

/-- Target slots of an underlying browser carrying its own member under the
same name. -/
def browserTargetSlots : String → JSVal :=
  fun key => if key = "__lastPageLoad" then .num 42 else .undefinedV

end Jscrape

/-- C1 counterexample: a freshly constructed BrowserHandler defines the
non-function value 0 for the key named lastPageLoad, yet the get trap does
not throw: because the truthiness test treats the defined falsy value like
an absent one, the underlying member (42 here) is returned silently, against
the claim that a defined non-function handler value always fails loudly. -/
theorem c1_counterexample :
    baseHandlerGet freshBrowserHandlerSlots browserTargetSlots "__lastPageLoad"
      = .value (.num 42)
    ∧ (baseHandlerGet freshBrowserHandlerSlots browserTargetSlots
        "__lastPageLoad").isInvalid = false := by
  exact ⟨rfl, rfl⟩

/-- C1 amended: member resolution of the proxy get trap. If the handler
slot is a function, a bound wrapper is returned and applying it invokes the
handler implementation on the underlying target; if the handler slot is
truthy but not a function, the access throws the internal invalid-request
Error; if the handler slot is falsy (absent, undefined, null, 0, false or
the empty string), the member of the underlying handle is returned exactly,
unmodified. -/
theorem c1_member_resolution
    (methods : Nat → (String → JSVal) → List JSVal → JSVal)
    (handlerSlots targetSlots : String → JSVal) (key : String) :
    (∀ fid, handlerSlots key = .func fid →
      baseHandlerGet handlerSlots targetSlots key = .boundMethod fid
      ∧ ∀ args, callGetResult methods targetSlots
          (baseHandlerGet handlerSlots targetSlots key) args
          = some (methods fid targetSlots args))
    ∧ (truthy (handlerSlots key) = true →
        (∀ fid, handlerSlots key ≠ .func fid) →
        baseHandlerGet handlerSlots targetSlots key = .invalidRequest key)
    ∧ (truthy (handlerSlots key) = false →
        baseHandlerGet handlerSlots targetSlots key
          = .value (targetSlots key)) := by
  refine ⟨fun fid hf => ?_, fun ht hnf => ?_, fun hf => ?_⟩
  · have h1 : baseHandlerGet handlerSlots targetSlots key = .boundMethod fid := by
      simp [baseHandlerGet, hf, truthy]
    exact ⟨h1, fun args => by rw [h1]; rfl⟩
  · rcases hv : handlerSlots key with _ | _ | b | n | s | fid | oid <;>
      rw [hv] at ht <;>
      first
      | exact absurd hv (hnf _)
      | simp_all [baseHandlerGet, truthy]
  · simp [baseHandlerGet, hf]

/-- C1 witness: the three branches of member resolution evaluated on a
concrete handler (a method under the key text, an object under the key
page, nothing under the key click) and a concrete target. -/
theorem c1_member_resolution_witness :
    baseHandlerGet
      (fun k => if k = "text" then .func 7
        else if k = "__page__" then .obj 3 else .undefinedV)
      (fun k => if k = "click" then .func 99 else .undefinedV) "text"
      = .boundMethod 7
    ∧ baseHandlerGet
      (fun k => if k = "text" then .func 7
        else if k = "__page__" then .obj 3 else .undefinedV)
      (fun k => if k = "click" then .func 99 else .undefinedV) "__page__"
      = .invalidRequest "__page__"
    ∧ baseHandlerGet
      (fun k => if k = "text" then .func 7
        else if k = "__page__" then .obj 3 else .undefinedV)
      (fun k => if k = "click" then .func 99 else .undefinedV) "click"
      = .value (.func 99) := by
  refine ⟨?_, ?_, ?_⟩
  · exact ((c1_member_resolution (fun _ _ _ => .undefinedV) _ _ "text").1 7 rfl).1
  · exact (c1_member_resolution (fun _ _ _ => .undefinedV) _ _ "__page__").2.1 rfl
      (fun fid h => by simp at h)
  · exact (c1_member_resolution (fun _ _ _ => .undefinedV) _ _ "click").2.2 rfl

namespace Jscrape

/-! ## Transitive wrapping of handle-valued results (src/lib/proxies.js) -/

/-- A handle as delivered by the automation engine (raw) or wrapped once by
a Proxy with one of the handler classes. -/
inductive Handle where
  | rawElem (id : Nat)
  | rawFrame (id : Nat)
  | rawPage (id : Nat)
  | proxied (h : Handle)
deriving DecidableEq, Repr

/-- Is the handle wrapped by the augmentation layer? -/
def Handle.isAugmented : Handle → Bool
  | .proxied _ => true
  | _ => false

/-- Embeds elementHandleProxy (lines 64-69): for a given page context,
wrap an ElementHandle in a Proxy with an ElementHandleHandler. -/
def elementHandleProxy (_page : Handle) (e : Handle) : Handle :=
  .proxied e

/-- Embeds PageHandler query-all (lines 397-400): the raw ElementHandles the
underlying page returns are each wrapped through elementHandleProxy. -/
def pageHandlerQueryAll (page : Handle) (rawElementHandles : List Handle) :
    List Handle :=
  rawElementHandles.map (elementHandleProxy page)

/-- Embeds PageHandler query-one (lines 405-412): a null result stays null,
a raw ElementHandle is wrapped through elementHandleProxy. -/
def pageHandlerQueryOne (page : Handle) (rawElementHandle : Option Handle) :
    Option Handle :=
  match rawElementHandle with
  | some e => some (elementHandleProxy page e)
  | none => none

/-- Embeds PageHandler.waitForSelector (lines 425-428): the wait options are
merged with the local defaults and the result of the underlying
page.waitForSelector call is returned as is, without any wrapping. -/
def pageHandlerWaitForSelector (underlyingResult : Option Handle) :
    Option Handle :=
  underlyingResult

/-- Embeds ElementHandleHandler query-all (lines 156-159): raw child
ElementHandles are wrapped for the handler page context. -/
def elementHandlerQueryAll (page : Handle) (rawElementHandles : List Handle) :
    List Handle :=
  rawElementHandles.map (elementHandleProxy page)

/-- Embeds ElementHandleHandler query-one (lines 164-171). -/
def elementHandlerQueryOne (page : Handle) (rawElementHandle : Option Handle) :
    Option Handle :=
  match rawElementHandle with
  | some e => some (elementHandleProxy page e)
  | none => none

end Jscrape

/-- C2 counterexample: the waitForSelector helper of the page handler hands
back the ElementHandle produced by the underlying engine call without
wrapping it, so the element it returns does not expose the convenience
operations, against the claim that elements obtained via waitForSelector are
augmented. -/
theorem c2_counterexample :
    pageHandlerWaitForSelector (some (.rawElem 0)) = some (.rawElem 0)
    ∧ Handle.isAugmented (.rawElem 0) = false := by
  exact ⟨rfl, rfl⟩

/-- C2 amended: element handles returned by the query operations of the page
and element handlers are wrapped through the augmentation proxy before being
returned (every element of a query-all result is augmented, and a non-null
query-one result is the wrapped underlying element), while the
waitForSelector helper returns the underlying engine result unwrapped. -/
theorem c2_transitive_wrapping (page : Handle) (raws : List Handle)
    (e : Handle) (r : Option Handle) :
    (∀ h ∈ pageHandlerQueryAll page raws, h.isAugmented = true)
    ∧ pageHandlerQueryOne page (some e) = some (.proxied e)
    ∧ pageHandlerQueryOne page none = none
    ∧ (∀ h ∈ elementHandlerQueryAll page raws, h.isAugmented = true)
    ∧ elementHandlerQueryOne page (some e) = some (.proxied e)
    ∧ pageHandlerWaitForSelector r = r := by
  refine ⟨?_, rfl, rfl, ?_, rfl, rfl⟩
  · intro h hmem
    rcases List.mem_map.mp hmem with ⟨x, _, hx⟩
    rw [← hx]
    rfl
  · intro h hmem
    rcases List.mem_map.mp hmem with ⟨x, _, hx⟩
    rw [← hx]
    rfl

/-- C2 witness: wrapping evaluated on a concrete page and concrete raw
element handles. -/
theorem c2_transitive_wrapping_witness :
    pageHandlerQueryOne (.rawPage 1) (some (.rawElem 5))
      = some (.proxied (.rawElem 5))
    ∧ pageHandlerWaitForSelector (some (.rawElem 5)) = some (.rawElem 5)
    ∧ Handle.isAugmented (.proxied (.rawElem 5)) = true := by
  refine ⟨(c2_transitive_wrapping (.rawPage 1) [] (.rawElem 5) none).2.1, ?_, rfl⟩
  exact (c2_transitive_wrapping (.rawPage 1) [] (.rawElem 5)
    (some (.rawElem 5))).2.2.2.2.2

namespace Jscrape

/-! ## Scraper.recoverable (src/lib/scrapers.js, lines 79-101) -/

/-- One complete run of an asynchronous generator: the items it yields in
order, and the fault it ends with instead of returning normally, if any. -/
structure GenRun (α : Type) where
  items : List α
  fault : Option String
deriving DecidableEq, Repr

/-- The outcome of executing one recoverable step: the items relayed, the
fault re-raised outward (if any), and the console-error lines emitted. -/
structure RecovOutcome (α : Type) where
  items : List α
  fault : Option String
  logs : List String
deriving DecidableEq, Repr

/-- The log line of the session-closed branch of Scraper.recoverable. -/
def sessionClosedLog : String :=
  "jscrape: Scraper.recoverable saw nonrecoverable SESSION CLOSED."

/-- Embeds Scraper.recoverable. The inner generator is delegated to; when it
throws, a fault whose rendering includes the session-closed text is logged
and re-raised, while any other fault is swallowed: the current page address
is sniffed from the step arguments (best effort, itself guarded), and a log
line is emitted only when an address was found. The sniffedUrl argument is
the result of that guarded sniffing. -/
def recoverable (run : GenRun α) (sniffedUrl : Option String) :
    RecovOutcome α :=
  match run.fault with
  | none => ⟨run.items, none, []⟩
  | some msg =>
    if jsIncludes msg "Session closed." then
      ⟨run.items, some msg, [sessionClosedLog]⟩
    else
      match sniffedUrl with
      | some url =>
        ⟨run.items, none,
          ["jscrape: Scraper.recoverable on " ++ url ++ ": " ++ msg]⟩
      | none => ⟨run.items, none, []⟩

/-- The outer generator sequence of Scraper.scrape (lines 153-163) restricted
to its recoverable boundary: each step (the process call for one opened page,
paired with the url sniffable from its arguments) is run under recoverable,
its items are relayed, and a fault re-raised by the boundary terminates the
outer sequence immediately. -/
def scrapeSteps : List (GenRun α × Option String) → GenRun α
  | [] => ⟨[], none⟩
  | (s, u) :: rest =>
    let r := recoverable s u
    match r.fault with
    | some m => ⟨r.items, some m⟩
    | none =>
      let k := scrapeSteps rest
      ⟨r.items ++ k.items, k.fault⟩

end Jscrape

/-- C3 counterexample: a fault raised inside a recoverable step while no
page address can be sniffed from the step arguments is captured (the step
ends without re-raising) but no log line at all is emitted, against the
claim that any captured fault is logged. -/
theorem c3_counterexample :
    recoverable (⟨["r1"], some "boom"⟩ : GenRun String) none
      = ⟨["r1"], none, []⟩ := by
  exact rfl

/-- C3 amended: a fault raised inside a recoverable step is captured and the
outer sequence resumes producing subsequent items, with a log line emitted
exactly when the page address could be determined from the step arguments;
except that a fault whose text includes the session-closed marker is logged
and always re-raised, terminating the outer sequence immediately. -/
theorem c3_recoverable_boundary (run : GenRun α) (u : Option String)
    (m : String) (rest : List (GenRun α × Option String)) :
    (run.fault = some m → jsIncludes m "Session closed." = false →
      (recoverable run u).fault = none
      ∧ (u = none → (recoverable run u).logs = [])
      ∧ (∀ url, u = some url → (recoverable run u).logs
          = ["jscrape: Scraper.recoverable on " ++ url ++ ": " ++ m])
      ∧ scrapeSteps ((run, u) :: rest)
          = ⟨run.items ++ (scrapeSteps rest).items, (scrapeSteps rest).fault⟩)
    ∧ (run.fault = some m → jsIncludes m "Session closed." = true →
      (recoverable run u).fault = some m
      ∧ (recoverable run u).logs = [sessionClosedLog]
      ∧ scrapeSteps ((run, u) :: rest) = ⟨run.items, some m⟩)
    ∧ (run.fault = none →
      scrapeSteps ((run, u) :: rest)
        = ⟨run.items ++ (scrapeSteps rest).items, (scrapeSteps rest).fault⟩) := by
  refine ⟨fun hf hnc => ?_, fun hf hc => ?_, fun hf => ?_⟩
  · rcases u with _ | url
    · have hr : recoverable run none = ⟨run.items, none, []⟩ := by
        simp [recoverable, hf, hnc]
      refine ⟨by rw [hr], fun _ => by rw [hr], ?_, by simp [scrapeSteps, hr]⟩
      intro url h
      exact absurd h (by simp)
    · have hr : recoverable run (some url) =
          ⟨run.items, none,
            ["jscrape: Scraper.recoverable on " ++ url ++ ": " ++ m]⟩ := by
        simp [recoverable, hf, hnc]
      refine ⟨by rw [hr], ?_, ?_, by simp [scrapeSteps, hr]⟩
      · intro h
        exact absurd h (by simp)
      · intro url2 h
        have h2 : url = url2 := by
          injection h
        subst h2
        rw [hr]
  · have hr : recoverable run u = ⟨run.items, some m, [sessionClosedLog]⟩ := by
      simp [recoverable, hf, hc]
    exact ⟨by rw [hr], by rw [hr], by simp [scrapeSteps, hr]⟩
  · have hr : recoverable run u = ⟨run.items, none, []⟩ := by
      simp [recoverable, hf]
    simp [scrapeSteps, hr]

/-- C3 witness: the boundary evaluated on concrete runs, one with an
ordinary fault and a sniffed address, one with a session-closed fault. -/
theorem c3_recoverable_boundary_witness :
    scrapeSteps
      [((⟨["r1"], some "navigation timeout"⟩ : GenRun String),
          some "http://a.test/"),
        ((⟨["r2"], none⟩ : GenRun String), none)]
      = ⟨["r1", "r2"], none⟩
    ∧ scrapeSteps
      [((⟨["r1"], some "Protocol error: Session closed."⟩ : GenRun String),
          none),
        ((⟨["r2"], none⟩ : GenRun String), none)]
      = ⟨["r1"], some "Protocol error: Session closed."⟩ := by
  constructor
  · have h := ((c3_recoverable_boundary
      (⟨["r1"], some "navigation timeout"⟩ : GenRun String)
      (some "http://a.test/") "navigation timeout"
      [((⟨["r2"], none⟩ : GenRun String), none)]).1 rfl (by decide)).2.2.2
    rw [h]
    decide
  · have h := ((c3_recoverable_boundary
      (⟨["r1"], some "Protocol error: Session closed."⟩ : GenRun String)
      none "Protocol error: Session closed."
      [((⟨["r2"], none⟩ : GenRun String), none)]).2.1 rfl (by decide)).2.2
    rw [h]

namespace Jscrape

/-! ## Runner error hook, watchdog and record dispatch (runner module) -/

/-- Embeds Runner.handleUnwrappedError (parameterized by the overridable
handleError hook): the fault is wrapped into the BaseError family and handed
to handleError. A hook result of some e2 means handleError threw e2 (the
default behavior); none means the hook swallowed the fault and returned. -/
def handleUnwrappedError (handleError : JsErr → Option JsErr) (e : JsErr) :
    Option JsErr :=
  handleError (wrappedError baseErrorClass e none)

/-- Embeds the default Runner.handleError: re-raise the wrapped fault. -/
def defaultHandleError (e : JsErr) : Option JsErr :=
  some e

/-- The message of the fault thrown by the watchdog timer callback of
Runner.getScraperItems. -/
def hardTimeoutMessage (hardTimeout : Nat) : String :=
  "Runner.getScraperItems: hardTimeout of " ++ toString hardTimeout
    ++ " was hit. Hard bailing on scraper."

/-- One timed run of the inner scrape generator as observed by
Runner.getScraperItems: each step is the waiting time spent by the runner
awaiting that item (the watchdog timer is armed at the start of each wait
and cleared when the item arrives, so consumer-side processing time between
re-arm points is not watched), then the waiting time for the generator to
finish, and optionally a fault the generator ends with instead. -/
structure TimedRun (α : Type) where
  steps : List (Nat × α)
  tailGap : Nat
  fault : Option JsErr
deriving DecidableEq, Repr

/-- The observable outcome of Runner.getScraperItems: the items relayed on
normal completion; the whole node process torn down by the uncaught fault
thrown inside the watchdog setTimeout callback (which never passes through
the try-catch of the generator and so never reaches the error hook); or a
fault re-raised by the error hook from the catch branch. -/
inductive ScrapeOutcome (α : Type) where
  | completed (items : List α)
  | processKilled (msg : String)
  | hookFault (e : JsErr)
deriving DecidableEq, Repr

/-- Worker for getScraperItemsRun, walking the timed steps. -/
def getScraperItemsGo (hardTimeout : Nat)
    (handleError : JsErr → Option JsErr) :
    List (Nat × α) → Nat → Option JsErr → ScrapeOutcome α
  | [], tailGap, fault =>
    if hardTimeout ≠ 0 ∧ hardTimeout < tailGap then
      .processKilled (hardTimeoutMessage hardTimeout)
    else
      match fault with
      | none => .completed []
      | some e =>
        match handleUnwrappedError handleError e with
        | some e2 => .hookFault e2
        | none => .completed []
  | (g, a) :: rest, tailGap, fault =>
    if hardTimeout ≠ 0 ∧ hardTimeout < g then
      .processKilled (hardTimeoutMessage hardTimeout)
    else
      match getScraperItemsGo hardTimeout handleError rest tailGap fault with
      | .completed items => .completed (a :: items)
      | other => other

/-- Embeds Runner.getScraperItems (runner module, lines 160-192) over a
timed generator run. A falsy (zero) hardTimeout arms no timer at all.
Otherwise the timer is armed before the first wait and after each item, and
it fires, throwing the fatal fault outside every try-catch, whenever one
waiting gap exceeds the hardTimeout; a generator fault is caught and routed
through handleUnwrappedError to the overridable handleError hook. -/
def getScraperItemsRun (hardTimeout : Nat)
    (handleError : JsErr → Option JsErr) (r : TimedRun α) : ScrapeOutcome α :=
  getScraperItemsGo hardTimeout handleError r.steps r.tailGap r.fault

end Jscrape

/-- Helper: when the watchdog is armed and some waiting gap exceeds the
hardTimeout, the worker ends in the process-killing fault. -/
theorem getScraperItemsGo_killed {α : Type} (T : Nat)
    (hE : JsErr → Option JsErr) (steps : List (Nat × α)) (tailGap : Nat)
    (fault : Option JsErr) (hT : T ≠ 0)
    (hex : (∃ p ∈ steps, T < p.1) ∨ T < tailGap) :
    getScraperItemsGo T hE steps tailGap fault
      = .processKilled (hardTimeoutMessage T) := by
  induction steps with
  | nil =>
    rcases hex with ⟨p, hp, _⟩ | htail
    · exact absurd hp (List.not_mem_nil p)
    · simp only [getScraperItemsGo]
      rw [if_pos ⟨hT, htail⟩]
  | cons hd tl ih =>
    by_cases hg : T < hd.1
    · rcases hd with ⟨g, a⟩
      simp only [getScraperItemsGo]
      rw [if_pos ⟨hT, hg⟩]
    · have hex2 : (∃ p ∈ tl, T < p.1) ∨ T < tailGap := by
        rcases hex with ⟨p, hp, hlt⟩ | htail
        · rcases List.mem_cons.mp hp with rfl | hmem
          · exact absurd hlt hg
          · exact Or.inl ⟨p, hmem, hlt⟩
        · exact Or.inr htail
      rcases hd with ⟨g, a⟩
      simp only [getScraperItemsGo]
      rw [if_neg (fun hand => hg hand.2), ih hex2]

/-- Helper: when the watchdog is armed but no waiting gap exceeds the
hardTimeout and the generator ends normally, the worker completes with
every item. -/
theorem getScraperItemsGo_completed {α : Type} (T : Nat)
    (hE : JsErr → Option JsErr) (steps : List (Nat × α)) (tailGap : Nat)
    (hall : ∀ p ∈ steps, p.1 ≤ T) (htail : tailGap ≤ T) :
    getScraperItemsGo T hE steps tailGap none
      = .completed (steps.map Prod.snd) := by
  induction steps with
  | nil =>
    simp only [getScraperItemsGo, List.map_nil]
    rw [if_neg (fun hand => absurd htail (by omega))]
  | cons hd tl ih =>
    have hhd : hd.1 ≤ T := hall hd (List.mem_cons_self hd tl)
    have hrec := ih (fun p hp => hall p (List.mem_cons_of_mem hd hp))
    rcases hd with ⟨g, a⟩
    simp only [getScraperItemsGo, List.map_cons]
    rw [if_neg (fun hand => absurd hhd (by omega)), hrec]

/-- C4 counterexample: with hardTimeout configured as 0 (a non-null value,
kept verbatim by the constructor), the watchdog is disabled by the
truthiness test, so a run whose first record takes 5 time units (exceeding
the configured timeout 0) still completes normally instead of raising the
fatal fault the claim requires. -/
theorem c4_counterexample :
    getScraperItemsRun 0 defaultHandleError
      (⟨[(5, "r1")], 1, none⟩ : TimedRun String)
      = .completed ["r1"]
    ∧ 0 < 5 := by
  exact ⟨rfl, by decide⟩

/-- C4 amended: for a truthy (nonzero) hardTimeout, if any waiting gap of
the run (before an item or before generator completion) exceeds the
hardTimeout, the outcome is the fatal process-killing fault, for every
error hook (no hook override); if no gap exceeds it and the generator ends
normally, the run completes with all items regardless of total duration. -/
theorem c4_watchdog (hardTimeout : Nat)
    (handleError : JsErr → Option JsErr) (r : TimedRun α)
    (hT : hardTimeout ≠ 0) :
    ((∃ p ∈ r.steps, hardTimeout < p.1) ∨ hardTimeout < r.tailGap →
      getScraperItemsRun hardTimeout handleError r
        = .processKilled (hardTimeoutMessage hardTimeout))
    ∧ ((∀ p ∈ r.steps, p.1 ≤ hardTimeout) → r.tailGap ≤ hardTimeout →
      r.fault = none →
      getScraperItemsRun hardTimeout handleError r
        = .completed (r.steps.map Prod.snd)) := by
  rcases r with ⟨steps, tailGap, fault⟩
  refine ⟨fun hex => ?_, fun hall htail hfault => ?_⟩
  · exact getScraperItemsGo_killed hardTimeout handleError steps tailGap fault
      hT hex
  · have hf : fault = none := hfault
    subst hf
    exact getScraperItemsGo_completed hardTimeout handleError steps tailGap
      hall htail

/-- C4 witness: the watchdog evaluated on a run whose second waiting gap
exceeds a hardTimeout of 10 (process killed) and on a run whose gaps all
stay within it (completed, with total duration well above 10). -/
theorem c4_watchdog_witness :
    getScraperItemsRun 10 defaultHandleError
      (⟨[(3, "r1"), (12, "r2")], 2, none⟩ : TimedRun String)
      = .processKilled (hardTimeoutMessage 10)
    ∧ getScraperItemsRun 10 defaultHandleError
      (⟨[(9, "r1"), (9, "r2"), (9, "r3"), (9, "r4")], 9, none⟩
        : TimedRun String)
      = .completed ["r1", "r2", "r3", "r4"] := by
  constructor
  · exact (c4_watchdog 10 defaultHandleError
      (⟨[(3, "r1"), (12, "r2")], 2, none⟩ : TimedRun String) (by decide)).1
      (Or.inl ⟨(12, "r2"), by decide, by decide⟩)
  · exact (c4_watchdog 10 defaultHandleError
      (⟨[(9, "r1"), (9, "r2"), (9, "r3"), (9, "r4")], 9, none⟩
        : TimedRun String) (by decide)).2 (by decide) (by decide) rfl

namespace Jscrape

/-! ## Record coercion and dispatch (Runner.runScraper, runner module) -/

/-- A record as dispatched by the runner: the name of its concrete class
(constructor name), its data fields, and the fault its validate method
throws, if any (the base Record validate is a no-op and throws none). -/
structure RecordM where
  kind : String
  fields : List (String × String)
  valFault : Option JsErr
deriving DecidableEq, Repr

/-- A value yielded by the scrape stream: either an instance of the Record
class (or a subclass), or a bare structural value. -/
inductive ScrapedItem where
  | recordItem (r : RecordM)
  | bareItem (fields : List (String × String))
deriving DecidableEq, Repr

/-- Embeds the coercion of Runner.runScraper (the instanceof test and the
Object.assign wrap): an instance of Record is kept; a bare value is adopted
into a fresh base Record carrying its fields, whose no-op validate throws
nothing. -/
def coerceItem : ScrapedItem → RecordM
  | .recordItem r => r
  | .bareItem f => ⟨"Record", f, none⟩

/-- Embeds Runner.getProcessorFor: the processor registered under the
constructor name of the record, or the default processor. -/
def getProcessorFor (procs : List (String × Nat)) (defaultP : Nat)
    (r : RecordM) : Nat :=
  match procs.lookup r.kind with
  | some p => p
  | none => defaultP

/-- The per-item body of the runScraper loop applied to one yielded value:
coerce, validate inside a try-catch routed to the hook, then look up the
processor and process inside a try-catch routed to the hook. The result is
either the processor that received the record or the fault re-raised by the
hook. The sinkFault argument gives the fault thrown by a given processor on
a given record, if any. -/
inductive StepResult where
  | processed (sink : Nat)
  | raised (e : JsErr)
deriving DecidableEq, Repr

/-- Embeds the loop body of Runner.runScraper (runner module, lines
200-228). -/
def processScrapedItem (procs : List (String × Nat)) (defaultP : Nat)
    (handleError : JsErr → Option JsErr)
    (sinkFault : Nat → RecordM → Option JsErr)
    (item : ScrapedItem) : StepResult :=
  let record := coerceItem item
  let afterValidate :=
    match record.valFault with
    | some e => handleUnwrappedError handleError e
    | none => none
  match afterValidate with
  | some e2 => .raised e2
  | none =>
    let sink := getProcessorFor procs defaultP record
    match sinkFault sink record with
    | some e =>
      match handleUnwrappedError handleError e with
      | some e2 => .raised e2
      | none => .processed sink
    | none => .processed sink

end Jscrape

/-- C7: record dispatch of the runner loop. A bare yielded value is adopted
into a base Record carrying its fields; the registered processor for the
concrete record kind is used, falling back to the default processor when
none is registered; with the default error hook, a validation fault or a
processor fault is re-raised wrapped into the BaseError family (unchanged
when it already is a BaseError instance); and a fault-free record is handed
to exactly the looked-up processor. -/
theorem c7_record_dispatch (procs : List (String × Nat)) (defaultP : Nat)
    (sinkFault : Nat → RecordM → Option JsErr) (f : List (String × String))
    (r : RecordM) (e : JsErr) :
    coerceItem (.bareItem f) = ⟨"Record", f, none⟩
    ∧ (procs.lookup r.kind = none → getProcessorFor procs defaultP r = defaultP)
    ∧ (∀ p, procs.lookup r.kind = some p → getProcessorFor procs defaultP r = p)
    ∧ (r.valFault = some e →
        processScrapedItem procs defaultP defaultHandleError sinkFault
          (.recordItem r)
          = .raised (wrappedError baseErrorClass e none))
    ∧ (r.valFault = none →
        sinkFault (getProcessorFor procs defaultP r) r = some e →
        processScrapedItem procs defaultP defaultHandleError sinkFault
          (.recordItem r)
          = .raised (wrappedError baseErrorClass e none))
    ∧ (r.valFault = none →
        sinkFault (getProcessorFor procs defaultP r) r = none →
        processScrapedItem procs defaultP defaultHandleError sinkFault
          (.recordItem r)
          = .processed (getProcessorFor procs defaultP r)) := by
  refine ⟨rfl, fun hl => ?_, fun p hl => ?_, fun hv => ?_, fun hv hs => ?_,
    fun hv hs => ?_⟩
  · simp [getProcessorFor, hl]
  · simp [getProcessorFor, hl]
  · simp [processScrapedItem, coerceItem, hv, handleUnwrappedError,
      defaultHandleError]
  · simp [processScrapedItem, coerceItem, hv, hs, handleUnwrappedError,
      defaultHandleError]
  · simp [processScrapedItem, coerceItem, hv, hs, handleUnwrappedError,
      defaultHandleError]

/-- C7 witness: dispatch evaluated on a concrete registry with one
registered processor. A bare value is adopted and routed to the default
processor; a record of the registered kind goes to its processor; a record
whose validate throws a foreign TypeError is re-raised wrapped into a
BaseError instance. -/
theorem c7_record_dispatch_witness :
    processScrapedItem [("JobRecord", 2)] 1 defaultHandleError
      (fun _ _ => none) (.bareItem [("name", "x")])
      = .processed 1
    ∧ processScrapedItem [("JobRecord", 2)] 1 defaultHandleError
      (fun _ _ => none) (.recordItem ⟨"JobRecord", [], none⟩)
      = .processed 2
    ∧ processScrapedItem [("JobRecord", 2)] 1 defaultHandleError
      (fun _ _ => none)
      (.recordItem ⟨"JobRecord", [],
        some ⟨["TypeError", "Error"], "bad field", "TypeError: bad field\nat f"⟩⟩)
      = .raised ⟨["BaseError", "Error"], "", "BaseError: bad field\nat f"⟩ := by
  refine ⟨?_, ?_, ?_⟩
  · have h := (c7_record_dispatch [("JobRecord", 2)] 1 (fun _ _ => none)
      [("name", "x")] ⟨"Record", [("name", "x")], none⟩
      ⟨[], "", ""⟩).2.2.2.2.2 rfl rfl
    simpa [getProcessorFor] using h
  · have h := (c7_record_dispatch [("JobRecord", 2)] 1 (fun _ _ => none)
      [] ⟨"JobRecord", [], none⟩ ⟨[], "", ""⟩).2.2.2.2.2 rfl rfl
    simpa [getProcessorFor] using h
  · have h := (c7_record_dispatch [("JobRecord", 2)] 1 (fun _ _ => none)
      [] ⟨"JobRecord", [],
        some ⟨["TypeError", "Error"], "bad field", "TypeError: bad field\nat f"⟩⟩
      ⟨["TypeError", "Error"], "bad field", "TypeError: bad field\nat f"⟩
      ).2.2.2.1 rfl
    rw [h]
    decide

namespace Jscrape

/-! ## Throttle clock and navigation ordering (src/lib/proxies.js) -/

/-- Embeds BrowserHandler.throttle (lines 790-797) on an idealized exact
clock: given the configured minimum interval, the stored time of the last
page load, and the current time, the call sleeps for the remaining part of
the interval if any and resolves at the returned time, which is also stored
as the new last page load time. -/
def throttleFinish (throttle lastPageLoad now : Nat) : Nat :=
  let duration := now - lastPageLoad
  if duration < throttle then now + (throttle - duration) else now

/-- A back-to-back sequence of navigation-class calls on one session: the
list gives, for each call, the delay between the previous call finishing its
throttle and this call starting. Each produced pair is the start time of the
call and the time its underlying navigation is issued (immediately after its
throttle resolves). -/
def navCalls (throttle : Nat) : Nat → Nat → List Nat → List (Nat × Nat)
  | _, _, [] => []
  | lastPageLoad, base, d :: ds =>
    let s := base + d
    let f := throttleFinish throttle lastPageLoad s
    (s, f) :: navCalls throttle f f ds

/-- Pairwise minimum-interval check over a call sequence: each navigation is
issued no earlier than the start of the previous call plus the interval. -/
def minGapOkB (throttle : Nat) : List (Nat × Nat) → Bool
  | [] => true
  | [_] => true
  | p :: q :: rest => decide (p.1 + throttle ≤ q.2) && minGapOkB throttle (q :: rest)

/-- The navigation-class operations of the augmentation layer. -/
inductive NavOp where
  | goto
  | goBack
  | goForward
  | clickAndNavigate
  | tryOpenPage
deriving DecidableEq, Repr

/-- The observable effects of a navigation-class operation, in order. -/
inductive NavAction where
  | consultThrottle
  | maybeClearCookies
  | openNewPage
  | navigate
deriving DecidableEq, Repr

/-- The statement order of each navigation-class operation, read off the
source: goto, goBack and goForward throttle, maybe clear cookies, then issue
the underlying navigation with merged options (lines 458-483);
clickAndNavigate throttles, maybe clears cookies, then waits for navigation
while clicking (lines 490-506); tryOpenPage throttles, opens a tab, and then
navigates through the proxied goto of the page, which throttles again
(lines 743-782 with 458-463). -/
def opActions : NavOp → List NavAction
  | .goto => [.consultThrottle, .maybeClearCookies, .navigate]
  | .goBack => [.consultThrottle, .maybeClearCookies, .navigate]
  | .goForward => [.consultThrottle, .maybeClearCookies, .navigate]
  | .clickAndNavigate => [.consultThrottle, .maybeClearCookies, .navigate]
  | .tryOpenPage =>
    [.consultThrottle, .openNewPage, .consultThrottle, .maybeClearCookies,
      .navigate]

/-- Does a throttle consultation occur before the first navigation of the
action list? -/
def throttledFirst : List NavAction → Bool
  | [] => true
  | .navigate :: _ => false
  | .consultThrottle :: _ => true
  | _ :: rest => throttledFirst rest

end Jscrape

/-- Helper: the throttle call resolves no earlier than the instant it was
made. -/
theorem throttleFinish_ge_now (throttle lastPageLoad now : Nat) :
    now ≤ throttleFinish throttle lastPageLoad now := by
  simp only [throttleFinish]
  split <;> omega

/-- Helper: the throttle call resolves no earlier than the stored last page
load plus the configured interval, whenever the clock is monotone. -/
theorem throttleFinish_ge_last (throttle lastPageLoad now : Nat)
    (h : lastPageLoad ≤ now) :
    lastPageLoad + throttle ≤ throttleFinish throttle lastPageLoad now := by
  simp only [throttleFinish]
  split <;> omega

/-- Helper: every back-to-back navigation sequence satisfies the pairwise
minimum-interval check. -/
theorem navCalls_minGapOk (throttle : Nat) (ds : List Nat)
    (lastPageLoad base : Nat) (h : lastPageLoad ≤ base) :
    minGapOkB throttle (navCalls throttle lastPageLoad base ds) = true := by
  induction ds generalizing lastPageLoad base with
  | nil => rfl
  | cons d ds ih =>
    cases ds with
    | nil => rfl
    | cons d2 ds2 =>
      simp only [navCalls, minGapOkB, Bool.and_eq_true, decide_eq_true_eq]
      constructor
      · have h1 : base + d ≤ throttleFinish throttle lastPageLoad (base + d) :=
          throttleFinish_ge_now throttle lastPageLoad (base + d)
        have h2 : throttleFinish throttle lastPageLoad (base + d) + throttle
            ≤ throttleFinish throttle
              (throttleFinish throttle lastPageLoad (base + d))
              (throttleFinish throttle lastPageLoad (base + d) + d2) :=
          throttleFinish_ge_last throttle
            (throttleFinish throttle lastPageLoad (base + d))
            (throttleFinish throttle lastPageLoad (base + d) + d2) (by omega)
        omega
      · have := ih (throttleFinish throttle lastPageLoad (base + d))
          (throttleFinish throttle lastPageLoad (base + d)) (le_refl _)
        simpa [navCalls, minGapOkB] using this

/-- C5: the rate limiter is consulted before the underlying navigation in
every navigation-class operation, and over any back-to-back sequence of
navigation calls on one session with configured interval, the time between
the start of a call and the next underlying navigation is never less than
the interval. -/
theorem c5_throttle_min_interval :
    (∀ op : NavOp, throttledFirst (opActions op) = true)
    ∧ ∀ (throttle lastPageLoad base : Nat) (ds : List Nat),
        lastPageLoad ≤ base →
        minGapOkB throttle (navCalls throttle lastPageLoad base ds) = true := by
  constructor
  · intro op
    cases op <;> rfl
  · intro throttle lastPageLoad base ds h
    exact navCalls_minGapOk throttle ds lastPageLoad base h

/-- C5 witness: a fresh session (stored last page load 0) issuing three
immediately consecutive navigation calls with interval 100 satisfies the
pairwise bound, and the goto operation consults the throttle first. -/
theorem c5_throttle_min_interval_witness :
    throttledFirst (opActions .goto) = true
    ∧ minGapOkB 100 (navCalls 100 0 7 [0, 0, 0]) = true := by
  exact ⟨c5_throttle_min_interval.1 .goto,
    c5_throttle_min_interval.2 100 0 7 [0, 0, 0] (by decide)⟩

namespace Jscrape

/-! ## BrowserHandler.tryOpenPage (src/lib/proxies.js, lines 743-782) -/

/-- Which of the engine calls inside one tryOpenPage invocation succeed.
The newPage call it awaits is itself two phases: first browser.newPage()
creates the raw page, then further awaits configure it (setCacheEnabled,
setRequestInterception, setExtraHTTPHeaders, setViewport); either phase can
throw. Then the goto navigation can fail (for example when its wait
condition is not met within the navigation timeout), and so can the close
attempted after a failed navigation. -/
structure TryOpenSpec where
  rawPageOk : Bool
  setupOk : Bool
  gotoOk : Bool
  closeOk : Bool
deriving DecidableEq, Repr

/-- The observable outcome of tryOpenPage: the returned value (the page id
or null), the page ids still open when it returns, and the fault it
propagates, if any. -/
structure TryOpenResult where
  page : Option Nat
  openPages : List Nat
  raised : Option JsErr
deriving DecidableEq, Repr

/-- Embeds BrowserHandler.tryOpenPage. After throttling, newPage is awaited
inside a try-catch whose handler only logs and sets the page variable to
null: when browser.newPage() itself failed no page exists, but when a later
setup await inside newPage failed, the raw page created first stays open
and nothing closes it. On a non-null page, goto is awaited inside a
try-catch that logs, attempts to close the page inside a further try-catch
that only logs, and sets the result to null. The single page such an
invocation can create carries id 0. -/
def tryOpenPage (s : TryOpenSpec) : TryOpenResult :=
  if !s.rawPageOk then
    ⟨none, [], none⟩
  else if !s.setupOk then
    ⟨none, [0], none⟩
  else if s.gotoOk then
    ⟨some 0, [0], none⟩
  else if s.closeOk then
    ⟨none, [], none⟩
  else
    ⟨none, [0], none⟩

end Jscrape

/-- C6 counterexample: when browser.newPage() creates the raw page but a
later setup await inside newPage throws, tryOpenPage catches the fault and
returns null, yet the raw page remains open with nothing ever closing it,
against the claim that any partially opened page is closed first and no
page handle is left open afterward. -/
theorem c6_counterexample :
    tryOpenPage ⟨true, false, true, true⟩ = ⟨none, [0], none⟩
    ∧ ([0] : List Nat) ≠ [] := by
  exact ⟨rfl, by decide⟩

/-- C6 amended: tryOpenPage never propagates a fault and returns null
whenever page creation or navigation fails; no page is left open when the
raw creation itself failed, or when a navigation failure is followed by a
successful best-effort close; but the opened page remains open both when
newPage throws after the raw page was created (failed setup await, never
closed) and when the close after a navigation failure itself fails. -/
theorem c6_try_open (s : TryOpenSpec) :
    (tryOpenPage s).raised = none
    ∧ (s.rawPageOk = false → tryOpenPage s = ⟨none, [], none⟩)
    ∧ (s.rawPageOk = true → s.setupOk = false →
        tryOpenPage s = ⟨none, [0], none⟩)
    ∧ (s.rawPageOk = true → s.setupOk = true → s.gotoOk = false →
        s.closeOk = true → tryOpenPage s = ⟨none, [], none⟩)
    ∧ (s.rawPageOk = true → s.setupOk = true → s.gotoOk = false →
        s.closeOk = false → tryOpenPage s = ⟨none, [0], none⟩)
    ∧ (s.rawPageOk = true → s.setupOk = true → s.gotoOk = true →
        tryOpenPage s = ⟨some 0, [0], none⟩) := by
  rcases s with ⟨rp, su, go, cl⟩
  cases rp <;> cases su <;> cases go <;> cases cl <;>
    refine ⟨rfl, ?_, ?_, ?_, ?_, ?_⟩ <;> intros <;> simp_all [tryOpenPage]

/-- C6 witness: tryOpenPage evaluated where the navigation times out but the
close succeeds, returning null with no page left open. -/
theorem c6_try_open_witness :
    tryOpenPage ⟨true, true, false, true⟩ = ⟨none, [], none⟩
    ∧ (tryOpenPage ⟨false, true, true, true⟩).raised = none := by
  exact ⟨(c6_try_open ⟨true, true, false, true⟩).2.2.2.1 rfl rfl rfl rfl,
    (c6_try_open ⟨false, true, true, true⟩).1⟩

namespace Jscrape

/-! ## LocalFileProcessor misuse (src/src/processors.js, lines 65-99) -/

/-- The TypeError thrown by the JavaScript engine when an ES2015 class
constructor is invoked without new, as happens on every line of the form
throw ProcessorError(message) in LocalFileProcessor. -/
def typeErrorClassCall (className : String) : JsErr :=
  ⟨["TypeError", "Error"],
    "Class constructor " ++ className ++ " cannot be invoked without new",
    "TypeError: Class constructor " ++ className
      ++ " cannot be invoked without new"⟩

/-- The ReferenceError raised when reading an undeclared variable, as
happens for the bare name path inside the open method. -/
def referenceErrorJs (n : String) : JsErr :=
  ⟨["ReferenceError", "Error"], n ++ " is not defined",
    "ReferenceError: " ++ n ++ " is not defined"⟩

/-- The state of a LocalFileProcessor: its path and whether its stream field
is set (truthy). -/
structure LocalFileProcessor where
  path : String
  streamOpen : Bool
deriving DecidableEq, Repr

/-- Embeds LocalFileProcessor.open: an already-opened sink reaches the
throw statement, which evaluates a call of the ProcessorError class without
new, raising a TypeError before anything is thrown deliberately; otherwise
execution reaches fs.createWriteStream applied to the undeclared bare names
path and options, raising a ReferenceError. Either way the state is
unchanged. -/
def LocalFileProcessor.openProc (p : LocalFileProcessor) :
    Except JsErr LocalFileProcessor :=
  if p.streamOpen then .error (typeErrorClassCall "ProcessorError")
  else .error (referenceErrorJs "path")

/-- Embeds LocalFileProcessor.process: an un-opened sink reaches the throw
statement, whose class call without new raises a TypeError; an opened sink
performs the intentional no-op. -/
def LocalFileProcessor.process (p : LocalFileProcessor) :
    Except JsErr LocalFileProcessor :=
  if !p.streamOpen then .error (typeErrorClassCall "ProcessorError")
  else .ok p

/-- Embeds LocalFileProcessor.close: an un-opened sink reaches the throw
statement, whose class call without new raises a TypeError; an opened sink
ends the stream and clears the field. -/
def LocalFileProcessor.close (p : LocalFileProcessor) :
    Except JsErr LocalFileProcessor :=
  if !p.streamOpen then .error (typeErrorClassCall "ProcessorError")
  else .ok ⟨p.path, false⟩

end Jscrape

/-- C9: each of the three misuse calls (open on an opened sink, process on
an un-opened sink, close on an un-opened sink) raises the TypeError produced
by invoking the ProcessorError class without new, a fault that is not an
instance of ProcessorError, against the documented intent that sink misuse
raises a ProcessorError; the state is left unchanged in each case. -/
theorem c9_processor_misuse_type_error :
    LocalFileProcessor.openProc ⟨"/tmp/out.jsonl", true⟩
      = .error (typeErrorClassCall "ProcessorError")
    ∧ LocalFileProcessor.process ⟨"/tmp/out.jsonl", false⟩
      = .error (typeErrorClassCall "ProcessorError")
    ∧ LocalFileProcessor.close ⟨"/tmp/out.jsonl", false⟩
      = .error (typeErrorClassCall "ProcessorError")
    ∧ (typeErrorClassCall "ProcessorError").classes.contains "ProcessorError"
      = false
    ∧ (typeErrorClassCall "ProcessorError").classes.contains "TypeError"
      = true := by
  exact ⟨rfl, rfl, rfl, by decide, by decide⟩
